import Mathlib

/-!
Verification of the grating-alignment stepper firmware
(`src/dep/arduinounostepper_TMC2209/arduinounostepper_TMC2209.ino`, the main
revision, and `src/unnamed/part_001`, the revision that tracks both the
`motorEnabled` and `motorMoving` flags).

The firmware talks to an external TMC2209 driver library; every call into
that library is recorded here as a `DriverCall`, so that theorems can speak
about which driver operations a handler performs and in which order.
`JsonValue` models the ArduinoJson `JsonVariant` payload of a command.
-/

/-- Calls into the external TMC2209 driver capability interface.  Each
constructor corresponds to one method of the `TMC2209` object used by the
source. -/
inductive DriverCall where
  | enable
  | disable
  | setHardwareEnablePin (pin : Int)
  | enableAnalogCurrentScaling
  | disableAutomaticCurrentScaling
  | enableAutomaticCurrentScaling
  | enableAutomaticGradientAdaptation
  | setPwmOffset (v : Int)
  | setPwmGradient (v : Int)
  | setRunCurrent (pct : Int)
  | setHoldCurrent (pct : Int)
  | setStandstillMode (mode : Nat)
  | setStallGuardThreshold (v : Int)
  | setMicrostepsPerStep (n : Int)
  | setMicrostepsPerStepPowerOfTwo (e : Int)
  | moveAtVelocity (v : Int)
  | moveUsingStepDirInterface
  | getStallGuardResult
  | isSetupAndCommunicating
  | hardwareDisabled
  | getStatus
  | setReplyDelay (v : Int)
  deriving DecidableEq, Repr

/-- The polymorphic `Value` field of a parsed command (ArduinoJson
`JsonVariant`): absent, an integer, or a boolean. -/
inductive JsonValue where
  | null
  | int (i : Int)
  | bool (b : Bool)
  deriving DecidableEq, Repr

/-- Whether `value.is<int32_t>()` (equivalently `is<int>()` at this scale)
holds for the variant. -/
def JsonValue.isInt : JsonValue → Bool
  | .int _ => true
  | _ => false

/-- Whether `value.is<uint8_t>()` holds: an integer that fits in `uint8_t`. -/
def JsonValue.isUInt8 : JsonValue → Bool
  | .int i => decide (0 ≤ i ∧ i ≤ 255)
  | _ => false

/-- The integer read by `value.as<int32_t>()` (0 when the variant is not an
integer; the source never reads it in that case). -/
def JsonValue.asInt : JsonValue → Int
  | .int i => i
  | _ => 0

/-- Read results supplied by the driver and by the environment.  The source
obtains these through driver methods (`getStallGuardResult`,
`hardwareDisabled`, `isSetupAndCommunicating`, `getStatus().standstill`);
during homing the stall-guard register is polled repeatedly, so its readings
form a trace indexed by the poll number. -/
structure DriverEnv where
  hwDisabled : Bool
  setupOk : Bool
  standstill : Bool
  sgNow : Nat
  stallTrace : Nat → Nat

/-- Result of one `executeCommand` run of the main revision: the returned
`success` flag, the `out_value` / `out_message` reference parameters, the
driver calls issued (in order), and the final `motorMoving` flag. -/
structure ExecOut where
  success : Bool
  value : Int
  message : String
  calls : List DriverCall
  moving : Bool
  deriving Repr

/-- `isPowerOfTwo` of the main revision: `n > 0 && (n & (n - 1)) == 0`. -/
def isPowerOfTwo (n : Int) : Bool :=
  decide (0 < n) && (n.toNat &&& (n.toNat - 1) == 0)

/-- The `while (millis() - startTime < TIMEOUT_MS)` polling loop of
`sensorlessHoming`.  Iteration `k` happens at elapsed time `10 * k` ms (the
`delay(10)` at the end of each iteration); the loop exits with the index of
the first poll whose stall-guard reading is at most the homing threshold 10,
or with `none` once `10 * k < 5000` fails.  The structural `fuel` argument
only makes the recursion structural; `501` units are more than the at most
`500` guarded iterations the time bound allows, so the fuel never runs out
before the guard does. -/
def seekLoop (stall : Nat → Nat) : Nat → Nat → Option Nat
  | _, 0 => none
  | k, fuel + 1 =>
    if 10 * k < 5000 then
      if stall k ≤ 10 then some k
      else seekLoop stall (k + 1) fuel
    else none

/-- The polling phase of `sensorlessHoming`, started at elapsed time 0. -/
def seekResult (stall : Nat → Nat) : Option Nat :=
  seekLoop stall 0 501

/-- `sensorlessHoming(direction, out_message, out_value)` of the main
revision.  `motorMoving` is the global flag at entry; `direction` is the
`uint8_t` argument (already checked to be 0 or 1 by the caller).  The
routine issues, in order: `setStallGuardThreshold(10)`, `enable()`,
`moveAtVelocity(direction * 100)`, then polls, then `moveAtVelocity(0)`;
on a detected stall it additionally issues
`moveAtVelocity(-direction * 50)` and a final `moveAtVelocity(0)`. -/
def sensorlessHoming (stall : Nat → Nat) (motorMoving : Bool)
    (direction : Nat) : ExecOut :=
  if motorMoving then
    { success := false, value := -1, message := "Motor is busy",
      calls := [], moving := motorMoving }
  else
    let velocity : Int := (direction : Int) * 100
    let pre : List DriverCall :=
      [.setStallGuardThreshold 10, .enable, .moveAtVelocity velocity]
    match seekResult stall with
    | some _ =>
      { success := true, value := 1, message := "Homing successful",
        calls := pre ++ [.moveAtVelocity 0,
                         .moveAtVelocity (-(direction : Int) * 50),
                         .moveAtVelocity 0],
        moving := false }
    | none =>
      { success := false, value := 0, message := "Homing timeout",
        calls := pre ++ [.moveAtVelocity 0],
        moving := false }

/-- The four driver calls of `resetToSafeCurrentSettings()` in the main
revision: run current 10 %, hold current 5 %, PWM offset and gradient 0. -/
def safeCurrentCalls : List DriverCall :=
  [.setRunCurrent 10, .setHoldCurrent 5, .setPwmOffset 0, .setPwmGradient 0]

/-- Whether a driver call changes a current or PWM-tuning setting (the
operations performed by the safe-current reset). -/
def touchesCurrent : DriverCall → Bool
  | .setRunCurrent _ => true
  | .setHoldCurrent _ => true
  | .setPwmOffset _ => true
  | .setPwmGradient _ => true
  | _ => false

/-- Whether a driver call changes the run- or hold-current setting. -/
def touchesRunHold : DriverCall → Bool
  | .setRunCurrent _ => true
  | .setHoldCurrent _ => true
  | _ => false

/-- The stall-guard threshold held by the driver after a list of calls,
starting from `t`: each `setStallGuardThreshold` overwrites it. -/
def foldThreshold (t : Int) (calls : List DriverCall) : Int :=
  calls.foldl
    (fun acc c =>
      match c with
      | .setStallGuardThreshold v => v
      | _ => acc) t

/-- `executeCommand(commandCode, value, out_value, out_message)` of the main
revision, as a function of the driver environment and the `motorMoving`
flag.  Every branch is translated directly from the source `switch`; the
`out_value` reference parameter starts at `-1` and is only overwritten where
the source assigns it. -/
def executeCommand (env : DriverEnv) (motorMoving : Bool) (code : Int)
    (v : JsonValue) : ExecOut :=
  match code with
  | 0 =>
    if v.isInt then
      if v.asInt = 1 then
        { success := true, value := 1, message := "ENB",
          calls := [.enable], moving := motorMoving }
      else if v.asInt = 0 then
        { success := true, value := 0, message := "DSB",
          calls := [.disable], moving := motorMoving }
      else
        { success := false, value := -1, message := "Enable must = 0 or 1",
          calls := [], moving := motorMoving }
    else
      { success := false, value := -1, message := "Enable is int.",
        calls := [], moving := motorMoving }
  | 1 =>
    if v.isInt then
      if 0 ≤ v.asInt ∧ v.asInt ≤ 255 then
        { success := true, value := v.asInt, message := "OK",
          calls := [.setHardwareEnablePin v.asInt], moving := motorMoving }
      else
        { success := false, value := -1, message := "Pin must be 0-255",
          calls := [], moving := motorMoving }
    else
      { success := false, value := -1, message := "Pin is int.",
        calls := [], moving := motorMoving }
  | 2 =>
    { success := true, value := if env.hwDisabled then 0 else 1,
      message := if env.hwDisabled then "ENB" else "DSB",
      calls := [.hardwareDisabled, .hardwareDisabled],
      moving := motorMoving }
  | 3 =>
    { success := true, value := 1, message := "Analog CRT SCL ENB",
      calls := [.enableAnalogCurrentScaling], moving := motorMoving }
  | 4 =>
    { success := true, value := 0, message := "Auto CRT SCL DSB",
      calls := [.disableAutomaticCurrentScaling], moving := motorMoving }
  | 5 =>
    { success := true, value := 1, message := "Auto CRT SCL ENB",
      calls := [.enableAutomaticCurrentScaling], moving := motorMoving }
  | 6 =>
    { success := true, value := 1, message := "Auto GRAD ADA ENB",
      calls := [.enableAutomaticGradientAdaptation], moving := motorMoving }
  | 7 =>
    if v.isInt then
      if 0 ≤ v.asInt ∧ v.asInt ≤ 255 then
        { success := true, value := v.asInt, message := "OK",
          calls := [.setPwmOffset v.asInt], moving := motorMoving }
      else
        { success := false, value := -1, message := "PWM offset in [0-255]",
          calls := [], moving := motorMoving }
    else
      { success := false, value := -1, message := "PWM offset is int",
        calls := [], moving := motorMoving }
  | 8 =>
    if v.isInt then
      if 0 ≤ v.asInt ∧ v.asInt ≤ 255 then
        { success := true, value := v.asInt, message := "OK",
          calls := [.setPwmGradient v.asInt], moving := motorMoving }
      else
        { success := false, value := -1,
          message := "PWM gradient is int in [0-255]",
          calls := [], moving := motorMoving }
    else
      { success := false, value := -1,
        message := "PWM gradient is int in [0-255]",
        calls := [], moving := motorMoving }
  | 9 =>
    if v.isInt then
      if 0 ≤ v.asInt ∧ v.asInt ≤ 100 then
        { success := true, value := v.asInt, message := "OK",
          calls := [.setRunCurrent v.asInt], moving := motorMoving }
      else
        { success := false, value := -1,
          message := "Run CRT is int in [0, 100]",
          calls := [], moving := motorMoving }
    else
      { success := false, value := -1,
        message := "Run CRT is int in [0, 100]",
        calls := [], moving := motorMoving }
  | 10 =>
    if v.isInt then
      if 0 ≤ v.asInt ∧ v.asInt ≤ 100 then
        { success := true, value := v.asInt, message := "OK",
          calls := [.setHoldCurrent v.asInt], moving := motorMoving }
      else
        { success := false, value := -1,
          message := "Hold CRT is int in [0, 100]",
          calls := [], moving := motorMoving }
    else
      { success := false, value := -1,
        message := "Hold CRT is int in [0, 100]",
        calls := [], moving := motorMoving }
  | 11 =>
    if v.isInt then
      if v.asInt = 0 ∨ v.asInt = 1 ∨ v.asInt = 2 ∨ v.asInt = 3 then
        { success := true, value := v.asInt,
          message := "Standstill mode=" ++ toString v.asInt,
          calls := [.setStandstillMode v.asInt.toNat],
          moving := motorMoving }
      else
        { success := false, value := -1,
          message := "Standstill mode is int in [0-3]",
          calls := [], moving := motorMoving }
    else
      { success := false, value := -1,
        message := "Standstill mode is int in [0-3]",
        calls := [], moving := motorMoving }
  | 12 =>
    if v.isInt then
      if 0 ≤ v.asInt ∧ v.asInt ≤ 255 then
        { success := true, value := v.asInt,
          message := "StallGuard thesh=" ++ toString v.asInt,
          calls := [.setStallGuardThreshold v.asInt],
          moving := motorMoving }
      else
        { success := false, value := -1,
          message := "Threshold is int in [0-255]",
          calls := [], moving := motorMoving }
    else
      { success := false, value := -1,
        message := "Threshold is int in [0-255]",
        calls := [], moving := motorMoving }
  | 13 =>
    if v.isInt then
      if isPowerOfTwo v.asInt then
        { success := true, value := v.asInt,
          message := "Microstep=1/" ++ toString v.asInt,
          calls := [.setMicrostepsPerStep v.asInt],
          moving := motorMoving }
      else
        { success := false, value := -1,
          message := "Microsteps is int and must be power of 2",
          calls := [], moving := motorMoving }
    else
      { success := false, value := -1,
        message := "Microsteps is int and must be power of 2",
        calls := [], moving := motorMoving }
  | 14 =>
    if v.isInt then
      if 0 ≤ v.asInt ∧ v.asInt ≤ 6 then
        { success := true, value := v.asInt, message := "Ok",
          calls := [.setMicrostepsPerStepPowerOfTwo v.asInt],
          moving := motorMoving }
      else
        { success := false, value := -1,
          message := "Exponent is int in [0-6]",
          calls := [], moving := motorMoving }
    else
      { success := false, value := -1,
        message := "Exponent is int in [0-6]",
        calls := [], moving := motorMoving }
  | 15 =>
    if v.isInt then
      if v.asInt = 0 then
        { success := true, value := -1, message := "Motor stop.",
          calls := safeCurrentCalls, moving := false }
      else
        { success := true, value := v.asInt,
          message := "Move at v=" ++ toString v.asInt,
          calls := [.moveAtVelocity v.asInt], moving := true }
    else
      { success := false, value := -1, message := "Velocity is int",
        calls := [], moving := motorMoving }
  | 16 =>
    { success := true, value := 1, message := "OK",
      calls := [.moveUsingStepDirInterface], moving := motorMoving }
  | 17 =>
    { success := true, value := if env.setupOk then 1 else 0,
      message := if env.setupOk then "Setup OK" else "Setup failed",
      calls := [.isSetupAndCommunicating, .isSetupAndCommunicating],
      moving := motorMoving }
  | 18 =>
    if v.isInt then
      { success := true, value := v.asInt, message := "OK",
        calls := [.setReplyDelay v.asInt], moving := motorMoving }
    else
      { success := false, value := -1, message := "Delay is int",
        calls := [], moving := motorMoving }
  | 19 =>
    { success := true, value := (env.sgNow : Int),
      message := "SG = " ++ toString (env.sgNow : Int),
      calls := [.getStallGuardResult], moving := motorMoving }
  | 20 =>
    { success := true, value := if env.standstill then 1 else 0,
      message := if env.standstill then "Standing still" else "Moving",
      calls := [.getStatus], moving := motorMoving }
  | 21 =>
    if v.isUInt8 then
      if v.asInt.toNat = 0 ∨ v.asInt.toNat = 1 then
        sensorlessHoming env.stallTrace motorMoving v.asInt.toNat
      else
        { success := false, value := -1,
          message := "Direction is uint8_t 0 or 1",
          calls := [], moving := motorMoving }
    else
      { success := false, value := -1,
        message := "Direction is uint8_t 0 or 1",
        calls := [], moving := motorMoving }
  | 22 =>
    { success := true, value := 1,
      message := "Reset to safe current settings",
      calls := safeCurrentCalls, moving := motorMoving }
  | c =>
    { success := false, value := c,
      message := "Unknown CommandCode " ++ toString c,
      calls := [], moving := motorMoving }

/-- The value validation each command of the main revision declares: the
type test and range check its handler performs before any driver call.
Read-only commands and unknown command codes declare no validation (always
`true`). -/
def validValue (code : Int) (v : JsonValue) : Bool :=
  match code with
  | 0 => v.isInt && decide (v.asInt = 0 ∨ v.asInt = 1)
  | 1 => v.isInt && decide (0 ≤ v.asInt ∧ v.asInt ≤ 255)
  | 7 => v.isInt && decide (0 ≤ v.asInt ∧ v.asInt ≤ 255)
  | 8 => v.isInt && decide (0 ≤ v.asInt ∧ v.asInt ≤ 255)
  | 9 => v.isInt && decide (0 ≤ v.asInt ∧ v.asInt ≤ 100)
  | 10 => v.isInt && decide (0 ≤ v.asInt ∧ v.asInt ≤ 100)
  | 11 => v.isInt && decide (v.asInt = 0 ∨ v.asInt = 1 ∨ v.asInt = 2 ∨ v.asInt = 3)
  | 12 => v.isInt && decide (0 ≤ v.asInt ∧ v.asInt ≤ 255)
  | 13 => v.isInt && isPowerOfTwo v.asInt
  | 14 => v.isInt && decide (0 ≤ v.asInt ∧ v.asInt ≤ 6)
  | 15 => v.isInt
  | 18 => v.isInt
  | 21 => v.isUInt8 && decide (v.asInt.toNat = 0 ∨ v.asInt.toNat = 1)
  | _ => true

/-- Mutable state of the `src/unnamed/part_001` revision: the
`motorEnabled` and `motorMoving` flags, the default-600 `velocity`, and the
`latestLoopTime` timestamp used by the reversal self-test. -/
structure FusionState where
  motorEnabled : Bool
  motorMoving : Bool
  velocity : Int
  latestLoopTime : Nat
  deriving DecidableEq, Repr

/-- Result of one `executeCommand` run of the `part_001` revision. -/
structure FusionOut where
  success : Bool
  value : Int
  message : String
  calls : List DriverCall
  state : FusionState
  deriving Repr

/-- `executeCommand(commandCode, value, out_value, out_message)` of the
`part_001` revision (commands `CMD_ENABLE = 0`, `CMD_SET_VELOCITY = 1`,
`CMD_MOVE = 2`).  `now` is the `millis()` reading taken when `CMD_MOVE(1)`
resets the reversal timer. -/
def executeCommandFusion (now : Nat) (st : FusionState) (code : Int)
    (v : JsonValue) : FusionOut :=
  match code with
  | 0 =>
    if v.isInt then
      if v.asInt = 1 then
        { success := true, value := 1, message := "ENB",
          calls := [.enable, .enable],
          state := { st with motorEnabled := true } }
      else if v.asInt = 0 then
        { success := true, value := 0, message := "DSB",
          calls := [.disable, .moveAtVelocity 0, .disable],
          state := { st with motorEnabled := false, motorMoving := false } }
      else
        { success := false, value := -1, message := "Enable must = 0 or 1",
          calls := [], state := st }
    else
      { success := false, value := -1, message := "Enable is int.",
        calls := [], state := st }
  | 1 =>
    if v.isInt then
      { success := true, value := v.asInt,
        message := "Velocity set to " ++ toString v.asInt,
        calls := [], state := { st with velocity := v.asInt } }
    else
      { success := false, value := -1, message := "Velocity must be int.",
        calls := [], state := st }
  | 2 =>
    if v.isInt then
      if v.asInt = 1 then
        if st.motorEnabled then
          { success := true, value := 1, message := "Move started",
            calls := [],
            state := { st with motorMoving := true, latestLoopTime := now } }
        else
          { success := false, value := -1, message := "Motor not enabled",
            calls := [], state := st }
      else if v.asInt = 0 then
        { success := true, value := 0, message := "Move stopped",
          calls := [.moveAtVelocity 0],
          state := { st with motorMoving := false } }
      else
        { success := false, value := -1, message := "Move must = 0 or 1",
          calls := [], state := st }
    else
      { success := false, value := -1, message := "Move value must be int.",
        calls := [], state := st }
  | c =>
    { success := false, value := c,
      message := "Unknown CommandCode " ++ toString c,
      calls := [], state := st }

/-- `checkStallGuardUart()` of the `part_001` revision: stall is declared
over UART when `getStallGuardResult() <= 240 * 2`. -/
def checkStallGuardUart (sgResult : Nat) : Bool :=
  sgResult ≤ 240 * 2

/-- Modelled from the spec: the fused stall-declared predicate of §3 —
`registerMagnitude <= 480` OR `diagLevel == asserted`.  No homing routine in
the repository combines the two signals; this definition follows the spec's
words so the homing code can be compared against it. -/
def specFusedStall (registerMagnitude : Nat) (diagAsserted : Bool) : Bool :=
  checkStallGuardUart registerMagnitude || diagAsserted

/-- A Response record: the `success` flag, the bounded `message` text and
the integer `value` handed to `sendResponse`. -/
structure Response where
  success : Bool
  message : String
  value : Int

/-- `sendResponse` of either revision, with the two external ArduinoJson
effects as parameters: `ser` is `serializeJson` (the serialized line) and
`ovf` is `response.overflowed()`.  When the document overflows, the source
enters `while (true) Serial.println("Overflowed.")` before the
`Serial.println(jsonBuffer)` line, so no response line is ever emitted;
`none` stands for that non-terminating diagnostic loop. -/
def sendResponse (ser : Response → String) (ovf : Response → Bool)
    (r : Response) : Option String :=
  if ovf r then none else some (ser r)

/-- The response lines the firmware emits for a queue of pending responses:
each response goes through `sendResponse`; an overflow halts the reporting
path forever, so nothing after it is ever emitted. -/
def emitResponses (ser : Response → String) (ovf : Response → Bool) :
    List Response → List String
  | [] => []
  | r :: rs =>
    match sendResponse ser ovf r with
    | some line => line :: emitResponses ser ovf rs
    | none => []

/-- A concrete driver environment for witnesses: driver healthy, standing
still, stall-guard register pinned at 1000 (no stall). -/
def env0 : DriverEnv :=
  { hwDisabled := false, setupOk := true, standstill := true,
    sgNow := 1000, stallTrace := fun _ => 1000 }

/-- The polling loop finds a stall exactly when some poll `j` reachable from
`k` within the 5000 ms window reads a stall-guard value at most 10, provided
the fuel covers the remaining window. -/
theorem seekLoop_isSome_iff (stall : Nat → Nat) :
    ∀ fuel k, 500 ≤ k + fuel →
      ((seekLoop stall k fuel).isSome = true ↔
        ∃ j, k ≤ j ∧ 10 * j < 5000 ∧ stall j ≤ 10) := by
  intro fuel
  induction fuel with
  | zero =>
    intro k hk
    simp only [seekLoop, Option.isSome_none]
    constructor
    · intro h; cases h
    · rintro ⟨j, hj1, hj2, _⟩; omega
  | succ f ih =>
    intro k hk
    simp only [seekLoop]
    by_cases hguard : 10 * k < 5000
    · rw [if_pos hguard]
      by_cases hstall : stall k ≤ 10
      · rw [if_pos hstall]
        simp only [Option.isSome_some, true_iff]
        exact ⟨k, le_refl _, hguard, hstall⟩
      · rw [if_neg hstall]
        rw [ih (k + 1) (by omega)]
        constructor
        · rintro ⟨j, hj1, hj2, hj3⟩; exact ⟨j, by omega, hj2, hj3⟩
        · rintro ⟨j, hj1, hj2, hj3⟩
          refine ⟨j, ?_, hj2, hj3⟩
          rcases Nat.eq_or_lt_of_le hj1 with h | h
          · exact absurd (h ▸ hj3) hstall
          · omega
    · rw [if_neg hguard]
      simp only [Option.isSome_none]
      constructor
      · intro h; cases h
      · rintro ⟨j, hj1, hj2, _⟩; omega

/-- The seeking phase detects a stall exactly when some poll inside the
5000 ms window reads a stall-guard value at most the homing threshold 10. -/
theorem seekResult_isSome_iff (stall : Nat → Nat) :
    (seekResult stall).isSome = true ↔ ∃ j, 10 * j < 5000 ∧ stall j ≤ 10 := by
  rw [seekResult, seekLoop_isSome_iff stall 501 0 (by omega)]
  constructor
  · rintro ⟨j, _, h2, h3⟩; exact ⟨j, h2, h3⟩
  · rintro ⟨j, h2, h3⟩; exact ⟨j, Nat.zero_le _, h2, h3⟩

/-- When every poll reads strictly above the threshold, seeking times out. -/
theorem seekResult_none (stall : Nat → Nat) (h : ∀ k, 10 < stall k) :
    seekResult stall = none := by
  cases hres : seekResult stall with
  | none => rfl
  | some j =>
    exfalso
    obtain ⟨k, _, hk⟩ := (seekResult_isSome_iff stall).1 (by rw [hres]; rfl)
    have := h k
    omega

/-- A poll inside the window that reads at most the threshold makes seeking
return a detection. -/
theorem seekResult_some_of (stall : Nat → Nat) (j : Nat)
    (hj : 10 * j < 5000) (hs : stall j ≤ 10) :
    ∃ i, seekResult stall = some i := by
  have := (seekResult_isSome_iff stall).2 ⟨j, hj, hs⟩
  cases hres : seekResult stall with
  | none => rw [hres] at this; cases this
  | some i => exact ⟨i, rfl⟩

/-- C1 counterexample: in the main revision, `Enable(0)` issued while
`motorMoving == true` returns success but leaves `motorMoving` true and
issues only `disable()` — no stop command and no safe-current reset are
applied, contradicting the claim that disabling forces `moving = false` and
re-applies the safe-current policy. -/
theorem c1_counterexample :
    (executeCommand env0 true 0 (JsonValue.int 0)).success = true ∧
    (executeCommand env0 true 0 (JsonValue.int 0)).moving = true ∧
    (executeCommand env0 true 0 (JsonValue.int 0)).calls =
      [DriverCall.disable] := by
  decide

/-- C1 amended: in the `part_001` revision (which tracks both flags),
`Enable(0)` from any state with `moving == true` succeeds, forces
`moving = false` and `enabled = false`, commands a stop
(`moveAtVelocity(0)`) and disables the driver, but applies no safe-current
reset (no current or PWM call is issued); in the main revision `Enable(0)`
only disables the driver and leaves `motorMoving` unchanged. -/
theorem c1_amended (env : DriverEnv) (mv : Bool) (now : Nat)
    (st : FusionState) (h : st.motorMoving = true) :
    ((executeCommand env mv 0 (JsonValue.int 0)).success = true ∧
     (executeCommand env mv 0 (JsonValue.int 0)).moving = mv ∧
     (executeCommand env mv 0 (JsonValue.int 0)).calls =
       [DriverCall.disable]) ∧
    ((executeCommandFusion now st 0 (JsonValue.int 0)).success = true ∧
     (executeCommandFusion now st 0 (JsonValue.int 0)).state.motorMoving
       = false ∧
     (executeCommandFusion now st 0 (JsonValue.int 0)).state.motorEnabled
       = false ∧
     (executeCommandFusion now st 0 (JsonValue.int 0)).calls =
       [DriverCall.disable, DriverCall.moveAtVelocity 0,
        DriverCall.disable] ∧
     (executeCommandFusion now st 0 (JsonValue.int 0)).calls.any
       touchesCurrent = false) := by
  simp [executeCommand, executeCommandFusion, JsonValue.isInt,
    JsonValue.asInt, touchesCurrent]

/-- C1 witness: the amended statement instantiated at a concrete moving
state. -/
theorem c1_witness :
    (executeCommandFusion 0 ⟨true, true, 600, 0⟩ 0
      (JsonValue.int 0)).state.motorMoving = false ∧
    (executeCommand env0 true 0 (JsonValue.int 0)).calls =
      [DriverCall.disable] :=
  ⟨(c1_amended env0 true 0 ⟨true, true, 600, 0⟩ rfl).2.2.1,
   (c1_amended env0 true 0 ⟨true, true, 600, 0⟩ rfl).1.2.2⟩

set_option maxRecDepth 20000 in
/-- C2 counterexample: with the stall-guard register pinned at 260 the
spec's fused predicate (`registerMagnitude <= 480` OR diag) holds at the
very first poll, yet the homing routine reports a timeout — the seeking
phase compares against 10, not 480, and never reads the diagnostic pin. -/
theorem c2_counterexample :
    specFusedStall 260 false = true ∧
    (sensorlessHoming (fun _ => 260) false 1).success = false ∧
    (sensorlessHoming (fun _ => 260) false 1).message = "Homing timeout" := by
  refine ⟨rfl, ?_, ?_⟩ <;> rfl

/-- C2 amended: during seeking, each poll declares stall exactly when the
stall-guard register value is at most the homing sensitivity 10 (the
diagnostic hardware signal is never consulted), and the routine reports a
successful detection iff that predicate holds at one of the 10 ms polls
within the 5000 ms window. -/
theorem c2_amended (stall : Nat → Nat) (d : Nat) :
    (sensorlessHoming stall false d).success = true ↔
      ∃ j, 10 * j < 5000 ∧ stall j ≤ 10 := by
  rw [← seekResult_isSome_iff stall]
  unfold sensorlessHoming
  cases h : seekResult stall <;> simp [h]

/-- C3 counterexample: direction 0 is an accepted input, but the routine
multiplies it directly into the velocity — it is never mapped to −1 — so
the seeking command (the third driver call) is `moveAtVelocity(0)`: the
seeking velocity is zero, not nonzero, for that input. -/
theorem c3_counterexample :
    (sensorlessHoming (fun _ => 0) false 0).calls =
      [DriverCall.setStallGuardThreshold 10, DriverCall.enable,
       DriverCall.moveAtVelocity 0, DriverCall.moveAtVelocity 0,
       DriverCall.moveAtVelocity 0, DriverCall.moveAtVelocity 0] := by
  decide

/-- C3 amended: for an accepted direction input `d ∈ {0, 1}` the routine
seeks at velocity `d * HOMING_SPEED` (so velocity 0 when `d = 0`; the input
is used as-is, not mapped into `{+1, −1}`), and when a poll inside the
5000 ms window reads a stall-guard value at most 10 it reports success and
issues exactly the sequence: threshold, enable, seek move, stop
(`moveAtVelocity(0)`), backoff at `-d * BACKOFF_SPEED` (opposite in sign to
the seek velocity when `d = 1`), and a final stop. -/
theorem c3_amended (stall : Nat → Nat) (d j : Nat)
    (hd : d = 0 ∨ d = 1) (hj : 10 * j < 5000) (hs : stall j ≤ 10) :
    (sensorlessHoming stall false d).success = true ∧
    (sensorlessHoming stall false d).calls =
      [DriverCall.setStallGuardThreshold 10, DriverCall.enable,
       DriverCall.moveAtVelocity ((d : Int) * 100),
       DriverCall.moveAtVelocity 0,
       DriverCall.moveAtVelocity (-(d : Int) * 50),
       DriverCall.moveAtVelocity 0] := by
  obtain ⟨i, hres⟩ := seekResult_some_of stall j hj hs
  simp [sensorlessHoming, hres]

/-- C3 witness: the amended statement instantiated at direction 1 with a
stall read at the first poll. -/
theorem c3_witness :
    (sensorlessHoming (fun _ => 0) false 1).calls =
      [DriverCall.setStallGuardThreshold 10, DriverCall.enable,
       DriverCall.moveAtVelocity 100, DriverCall.moveAtVelocity 0,
       DriverCall.moveAtVelocity (-50), DriverCall.moveAtVelocity 0] := by
  have h := (c3_amended (fun _ => 0) 1 0 (Or.inr rfl) (by decide)
    (by decide)).2
  simpa using h

/-- C4: when no poll inside the 5000 ms window ever reads a stall-guard
value at or below the threshold, the homing routine stops the motor
(`moveAtVelocity(0)`), clears `motorMoving`, returns a failure Response
with the timeout message, and issues no backoff move — the complete call
sequence is threshold, enable, seek move, single stop. -/
theorem c4_timeout_no_backoff (stall : Nat → Nat) (d : Nat)
    (h : ∀ k, 10 < stall k) :
    (sensorlessHoming stall false d).success = false ∧
    (sensorlessHoming stall false d).message = "Homing timeout" ∧
    (sensorlessHoming stall false d).moving = false ∧
    (sensorlessHoming stall false d).calls =
      [DriverCall.setStallGuardThreshold 10, DriverCall.enable,
       DriverCall.moveAtVelocity ((d : Int) * 100),
       DriverCall.moveAtVelocity 0] := by
  simp [sensorlessHoming, seekResult_none stall h]

/-- C4 witness: a register trace pinned at 11 (just above the threshold)
never declares stall, and the routine reports the timeout. -/
theorem c4_witness :
    (∀ k : Nat, 10 < (fun _ => 11 : Nat → Nat) k) ∧
    (sensorlessHoming (fun _ => 11) false 1).message = "Homing timeout" :=
  ⟨fun _ => Nat.le.refl,
   (c4_timeout_no_backoff (fun _ => 11) 1 (fun _ => Nat.le.refl)).2.1⟩

/-- C5: invoking `SensorlessHoming` (command 21) while `motorMoving == true`
performs no driver call, leaves the motor state unchanged, and returns a
failure; with an accepted direction value the failure message is the Busy
message.  (The main revision's MotorState is the single `motorMoving`
flag; with zero driver calls no enabled/velocity effect can occur.) -/
theorem c5_busy_guard (env : DriverEnv) (v : JsonValue) :
    ((executeCommand env true 21 v).success = false ∧
     (executeCommand env true 21 v).calls = [] ∧
     (executeCommand env true 21 v).moving = true) ∧
    (v = JsonValue.int 0 ∨ v = JsonValue.int 1 →
      (executeCommand env true 21 v).message = "Motor is busy") := by
  cases v <;>
    simp_all [executeCommand, sensorlessHoming, JsonValue.isInt,
      JsonValue.isUInt8, JsonValue.asInt] <;>
    split_ifs <;> simp_all [sensorlessHoming] <;> omega

/-- C5 witness: the busy guard at direction 1. -/
theorem c5_witness :
    (executeCommand env0 true 21 (JsonValue.int 1)).calls = [] ∧
    (executeCommand env0 true 21 (JsonValue.int 1)).message
      = "Motor is busy" :=
  ⟨(c5_busy_guard env0 (JsonValue.int 1)).1.2.1,
   (c5_busy_guard env0 (JsonValue.int 1)).2 (Or.inr rfl)⟩

/-- C6: whenever a command's value fails the type or range validation its
handler declares, `executeCommand` returns `success = false`, performs zero
driver calls, and leaves `motorMoving` unchanged. -/
theorem c6_validation_guard (env : DriverEnv) (mv : Bool) (code : Int)
    (v : JsonValue) (h : validValue code v = false) :
    (executeCommand env mv code v).success = false ∧
    (executeCommand env mv code v).calls = [] ∧
    (executeCommand env mv code v).moving = mv := by
  unfold executeCommand validValue at *
  split <;> simp_all <;> cases v <;>
    simp_all [JsonValue.isInt, JsonValue.isUInt8, JsonValue.asInt] <;>
    split_ifs <;> simp_all <;> omega

/-- C6 witness: `SetRunCurrent(200)` is out of range, is rejected, and
touches neither the driver nor the state. -/
theorem c6_witness :
    validValue 9 (JsonValue.int 200) = false ∧
    (executeCommand env0 false 9 (JsonValue.int 200)).success = false ∧
    (executeCommand env0 false 9 (JsonValue.int 200)).calls = [] :=
  ⟨by decide, (c6_validation_guard env0 false 9 (JsonValue.int 200)
      (by decide)).1,
    (c6_validation_guard env0 false 9 (JsonValue.int 200) (by decide)).2.1⟩

/-- C7 counterexample: `MoveAtVelocity(0)` succeeds and performs four
driver operations (the safe-current reset), not exactly one. -/
theorem c7_counterexample :
    (executeCommand env0 false 15 (JsonValue.int 0)).success = true ∧
    (executeCommand env0 false 15 (JsonValue.int 0)).calls.length = 4 := by
  decide

set_option maxHeartbeats 2000000 in
/-- C7 amended: every successful command execution performs exactly one
driver operation, except that the `MoveAtVelocity(0)` stop path and
`ResetToSafeCurrent` issue the four safe-current calls, the
`HardwareDisabled` and `IsSetupAndCommunicating` read handlers query the
driver twice, and `SensorlessHoming` (command 21) delegates to the homing
routine. -/
theorem c7_amended (env : DriverEnv) (mv : Bool) (code : Int)
    (v : JsonValue) (h : (executeCommand env mv code v).success = true) :
    (executeCommand env mv code v).calls.length = 1 ∨
    (executeCommand env mv code v).calls = safeCurrentCalls ∨
    ((code = 2 ∨ code = 17) ∧
      (executeCommand env mv code v).calls.length = 2) ∨
    code = 21 := by
  revert h
  unfold executeCommand
  split <;> intro h <;>
    first
      | (exact Or.inr (Or.inr (Or.inr rfl)))
      | (exact Or.inr (Or.inr (Or.inl ⟨Or.inl rfl, rfl⟩)))
      | (exact Or.inr (Or.inr (Or.inl ⟨Or.inr rfl, rfl⟩)))
      | (exact Or.inr (Or.inl rfl))
      | (exact Or.inl rfl)
      | (cases v <;>
          simp_all [JsonValue.isInt, JsonValue.isUInt8, JsonValue.asInt] <;>
          split_ifs at h ⊢ <;> simp_all)

/-- C7 witness: `SetRunCurrent(50)` succeeds with exactly one driver call. -/
theorem c7_witness :
    (executeCommand env0 false 9 (JsonValue.int 50)).success = true ∧
    ((executeCommand env0 false 9 (JsonValue.int 50)).calls.length = 1 ∨
     (executeCommand env0 false 9 (JsonValue.int 50)).calls
       = safeCurrentCalls ∨
     (((9 : Int) = 2 ∨ (9 : Int) = 17) ∧
       (executeCommand env0 false 9 (JsonValue.int 50)).calls.length = 2) ∨
     (9 : Int) = 21) :=
  ⟨by decide, c7_amended env0 false 9 (JsonValue.int 50) (by decide)⟩

/-- C8: when serializing a response overflows the fixed output buffer, the
firmware emits no serialized line for it (`sendResponse` halts in the
diagnostic loop) and no response queued after it is ever emitted. -/
theorem c8_overflow_halts (ser : Response → String) (ovf : Response → Bool)
    (r : Response) (rs : List Response) (h : ovf r = true) :
    sendResponse ser ovf r = none ∧
    emitResponses ser ovf (r :: rs) = [] := by
  simp [sendResponse, emitResponses, h]

/-- C8 witness: a queue whose first response overflows emits nothing. -/
theorem c8_witness :
    emitResponses (fun r => r.message) (fun _ => true)
      [⟨true, "Ready.", 0⟩, ⟨true, "ENB", 1⟩] = [] :=
  (c8_overflow_halts (fun r => r.message) (fun _ => true)
    ⟨true, "Ready.", 0⟩ [⟨true, "ENB", 1⟩] rfl).2

/-- C9: in the `part_001` revision, every command execution preserves the
invariant `motorMoving == true → motorEnabled == true`. -/
theorem c9_moving_implies_enabled (now : Nat) (st : FusionState)
    (code : Int) (v : JsonValue)
    (h : st.motorMoving = true → st.motorEnabled = true) :
    (executeCommandFusion now st code v).state.motorMoving = true →
    (executeCommandFusion now st code v).state.motorEnabled = true := by
  unfold executeCommandFusion
  split <;> cases v <;>
    simp_all [JsonValue.isInt, JsonValue.asInt] <;>
    split_ifs <;> simp_all

/-- C9 witness: the invariant is preserved by `CMD_MOVE(1)` from an
enabled, stopped state. -/
theorem c9_witness :
    (executeCommandFusion 5 ⟨true, false, 600, 0⟩ 2
      (JsonValue.int 1)).state.motorEnabled = true :=
  c9_moving_implies_enabled 5 ⟨true, false, 600, 0⟩ 2 (JsonValue.int 1)
    (fun _ => rfl) rfl

/-- C10: after every non-busy return of the homing routine (detection or
timeout), the driver's stall-guard threshold is 10 regardless of what it
was before the call — the routine never restores the prior threshold — and
the routine issues no run-current or hold-current call. -/
theorem c10_threshold_frame (stall : Nat → Nat) (d : Nat) (t : Int) :
    foldThreshold t (sensorlessHoming stall false d).calls = 10 ∧
    (sensorlessHoming stall false d).calls.any touchesRunHold = false := by
  unfold sensorlessHoming
  cases hres : seekResult stall <;>
    simp [hres, foldThreshold, touchesRunHold, List.foldl, List.any]
